import Mathlib

/-!
Shallow embedding of the emps_system folder-watcher entry point
(src/watched_dir/main.py) and of the ingestion pipeline it drives.

The entry point is modelled as a pure function from an environment
(the outcomes of every call into an external collaborator: database
connect, table creation, folder setup, the sweep, the watch
subscription, and whatever eventually breaks the idle sleep loop) to
the ordered trace of observable events together with the process
outcome (exit with a code, or run forever).

Python exceptions are modelled explicitly: a call can return a value,
raise an Exception subclass (carrying its message), or raise
KeyboardInterrupt, which is not an Exception subclass in Python and
therefore escapes every `except Exception` clause. `sys.exit(n)`
raises SystemExit, which is likewise not an Exception subclass; it is
modelled directly as the process outcome `exits n`.
-/

namespace EmpsSystem

/-- Observable events of the process, in the order they occur:
log lines, calls on the database manager, calls on the folder
watcher, and iterations of the idle sleep loop. -/
inductive Ev where
  | logInfo (m : String)
  | logError (m : String)
  | connect
  | createTables
  | disconnect
  | setupFoldersEv
  | processExistingEv
  | startWatchingEv
  | stopWatchingEv
  | sleepEv
deriving DecidableEq

/-- Outcome of one call into an external collaborator: a returned
value, a raised Exception subclass (with its message), or a raised
KeyboardInterrupt. -/
inductive PyRes (α : Type) where
  | ok (a : α)
  | exc (m : String)
  | kbInt
deriving DecidableEq

/-- Environment of `initialize_database`: the outcomes of
`DatabaseManager.connect()` and `DatabaseManager.create_all_tables()`. -/
structure DbEnv where
  connectRes : PyRes Bool
  createRes : PyRes Bool
deriving DecidableEq

/-- How `initialize_database` finishes: it returns a Bool, or the
KeyboardInterrupt raised inside it escapes its `except Exception`. -/
inductive InitRes where
  | ret (b : Bool)
  | kbInt
deriving DecidableEq

/-- Embedding of `initialize_database` in `src/watched_dir/main.py`:
connect, then create tables, logging as the code does; any Exception
is caught, logged as a database initialization error and turned into
`False`; the `finally` block disconnects on every path, including when
a KeyboardInterrupt escapes. -/
def initialize_database (env : DbEnv) : List Ev × InitRes :=
  let pre : List Ev := [.logInfo "Initializing database tables..."]
  match env.connectRes with
  | .exc e =>
      (pre ++ [.connect, .logError ("Database initialization error: " ++ e),
               .disconnect], .ret false)
  | .kbInt => (pre ++ [.connect, .disconnect], .kbInt)
  | .ok false =>
      (pre ++ [.connect, .logError "Failed to connect to database for initialization",
               .disconnect], .ret false)
  | .ok true =>
      match env.createRes with
      | .exc e =>
          (pre ++ [.connect, .createTables,
                   .logError ("Database initialization error: " ++ e),
                   .disconnect], .ret false)
      | .kbInt => (pre ++ [.connect, .createTables, .disconnect], .kbInt)
      | .ok true =>
          (pre ++ [.connect, .createTables,
                   .logInfo "Database initialization completed successfully",
                   .disconnect], .ret true)
      | .ok false =>
          (pre ++ [.connect, .createTables,
                   .logError "Database initialization failed",
                   .disconnect], .ret false)

/-- Embedding of `signal_handler` in `src/watched_dir/main.py`:
log the shutdown message, call `watcher.stop_watching()` only when the
global `watcher` exists, then `sys.exit(0)`. Returns the events it
emits and the exit code it requests. -/
def signal_handler (watcherDefined : Bool) : List Ev × Nat :=
  ([Ev.logInfo "Shutdown signal received, stopping folder watcher..."]
     ++ (if watcherDefined then [Ev.stopWatchingEv] else []), 0)

/-- What eventually breaks the idle `while True: time.sleep(1)` loop:
an OS termination signal (SIGINT or SIGTERM, dispatched to
`signal_handler`), a KeyboardInterrupt, or an Exception. -/
inductive LoopBreak where
  | signalled
  | kbInt
  | exc (m : String)
deriving DecidableEq

/-- Environment of `main`: the outcomes of each external call made in
its `try` block, the number of completed sleep iterations, and what
(if anything) breaks the idle loop. -/
structure MainEnv where
  db : DbEnv
  setupFoldersRes : PyRes Unit
  sweepRes : PyRes Unit
  startWatchRes : PyRes Unit
  sleeps : Nat
  loopBreak : Option LoopBreak
deriving DecidableEq

/-- Process outcome: termination with an exit status, or running
forever in the idle loop. -/
inductive Outcome where
  | exits (code : Nat)
  | runsForever
deriving DecidableEq

/-- The `except KeyboardInterrupt` handler of `main`: log, then call
`signal_handler`, whose `sys.exit(0)` terminates the process. -/
def kbBranch (watcherDefined : Bool) : List Ev × Outcome :=
  ([Ev.logInfo "Keyboard interrupt received"] ++ (signal_handler watcherDefined).1,
   .exits (signal_handler watcherDefined).2)

/-- The `except Exception` handler of `main`: log the unexpected error
and `sys.exit(1)`. -/
def excBranch (e : String) : List Ev × Outcome :=
  ([Ev.logError ("Unexpected error: " ++ e)], .exits 1)

/-- The idle `while True: time.sleep(1)` loop of `main`: completed
sleep iterations followed by whatever breaks the loop. A delivered
termination signal runs `signal_handler` with the watcher defined and
exits with its code. -/
def loopTail (env : MainEnv) : List Ev × Outcome :=
  let sleeps := List.replicate env.sleeps Ev.sleepEv
  match env.loopBreak with
  | none => (sleeps, .runsForever)
  | some .signalled =>
      (sleeps ++ (signal_handler true).1, .exits (signal_handler true).2)
  | some .kbInt => (sleeps ++ (kbBranch true).1, (kbBranch true).2)
  | some (.exc e) => (sleeps ++ (excBranch e).1, (excBranch e).2)

/-- Embedding of `main` in `src/watched_dir/main.py`. An event marks
the corresponding call being made; a call that raises jumps to the
matching handler. `sys.exit(1)` after a failed initialization raises
SystemExit, which no `except` clause of `main` catches, so the process
exits 1. The global `watcher` is defined only after
`initialize_database` has returned `True`. -/
def main (env : MainEnv) : List Ev × Outcome :=
  let pre : List Ev := [.logInfo "Starting Employee Management System - Folder Watcher"]
  let init := initialize_database env.db
  match init.2 with
  | .kbInt => (pre ++ init.1 ++ (kbBranch false).1, (kbBranch false).2)
  | .ret false =>
      (pre ++ init.1 ++ [.logError "Database initialization failed. Exiting..."],
       .exits 1)
  | .ret true =>
      let t0 := pre ++ init.1
      match env.setupFoldersRes with
      | .exc e => (t0 ++ [.setupFoldersEv] ++ (excBranch e).1, (excBranch e).2)
      | .kbInt => (t0 ++ [.setupFoldersEv] ++ (kbBranch true).1, (kbBranch true).2)
      | .ok _ =>
        let t1 := t0 ++ [Ev.setupFoldersEv]
        match env.sweepRes with
        | .exc e => (t1 ++ [.processExistingEv] ++ (excBranch e).1, (excBranch e).2)
        | .kbInt => (t1 ++ [.processExistingEv] ++ (kbBranch true).1, (kbBranch true).2)
        | .ok _ =>
          let t2 := t1 ++ [Ev.processExistingEv]
          match env.startWatchRes with
          | .exc e => (t2 ++ [.startWatchingEv] ++ (excBranch e).1, (excBranch e).2)
          | .kbInt => (t2 ++ [.startWatchingEv] ++ (kbBranch true).1, (kbBranch true).2)
          | .ok _ =>
            let t3 := t2 ++ [Ev.startWatchingEv,
                             Ev.logInfo "Folder watcher is running. Press Ctrl+C to stop."]
            (t3 ++ (loopTail env).1, (loopTail env).2)

/-- Outcome recorded in the ingestion ledger for one (path,
fingerprint) pair. -/
inductive LOutcome where
  | processed
  | failed (reason : String)
deriving DecidableEq

/-- One ingestion ledger entry: file identity (path plus content
fingerprint) mapped to an outcome. -/
structure LedgerEntry where
  path : String
  fp : String
  outcome : LOutcome
deriving DecidableEq

/-- A structured record extracted from a file: format-specific
key/value fields. -/
abbrev Rec := List (String × String)

/-- State owned by the ingestion pipeline: the durable ledger, the
committed records in storage, and the log of per-file failures. -/
structure IngestState where
  ledger : List LedgerEntry
  storage : List Rec
  logs : List String
deriving DecidableEq

/-- Modelled from the spec: the content fingerprint is a hash of the
file bytes; it is modelled as the content itself, an injective
stand-in for a content hash. The fingerprinting code is not under
src/. -/
def fingerprint (content : String) : String := content

/-- Ledger entries recording outcome processed for this exact
(path, fingerprint) pair. -/
def processedEntries (st : IngestState) (p fp : String) : List LedgerEntry :=
  st.ledger.filter
    (fun en => en.path == p && en.fp == fp && en.outcome == LOutcome.processed)

/-- Number of processed ledger entries for a (path, fingerprint)
pair. -/
def countProcessed (st : IngestState) (p fp : String) : Nat :=
  (processedEntries st p fp).length

/-- Modelled from the spec: the Ingestion Tracker is not under src/.
shouldProcess(path, fingerprint) is true exactly when no ledger entry
exists for this (path, fingerprint) pair with outcome processed. -/
def shouldProcess (st : IngestState) (p fp : String) : Bool :=
  (processedEntries st p fp).length == 0

/-- A file in the watched directory: its path and its content bytes. -/
structure WFile where
  path : String
  content : String
deriving DecidableEq

/-- Modelled from the spec: the per-file ingestion path shared by the
sweep and by live watching is not under src/. For one file:
shouldProcess, then parse; on success the batch of records is
committed atomically and the file is marked processed; a parse or
persistence failure is caught at this boundary, logged with file
identity and reason, and the file is marked failed; an
already-processed file is skipped. The parser is a parameter: it
returns a batch of records or a failure reason, and a persistence
failure is modelled the same way through it. -/
def process_file (parse : String → Except String (List Rec))
    (st : IngestState) (f : WFile) : IngestState :=
  let fp := fingerprint f.content
  if shouldProcess st f.path fp then
    match parse f.content with
    | .ok recs =>
        { ledger := st.ledger ++ [⟨f.path, fp, .processed⟩]
          storage := st.storage ++ recs
          logs := st.logs }
    | .error e =>
        { ledger := st.ledger ++ [⟨f.path, fp, .failed e⟩]
          storage := st.storage
          logs := st.logs ++ [f.path ++ ": " ++ e] }
  else st

/-- Modelled from the spec: the startup sweep routes every existing
file, in listing order, through the same per-file ingestion path. -/
def sweep (parse : String → Except String (List Rec))
    (st : IngestState) (fs : List WFile) : IngestState :=
  fs.foldl (process_file parse) st

/-- Process-wide watcher lifecycle state from the spec. -/
inductive WState where
  | stopped
  | sweeping
  | watching
deriving DecidableEq

/-- The Directory Watcher as seen by the shutdown path: its lifecycle
state and whether the storage connection it drives is open. -/
structure Watcher where
  state : WState
  storageConnected : Bool
deriving DecidableEq

/-- Modelled from the spec: `FolderWatcher.stop_watching` is imported
by `main.py` but its module is not under src/. Per the spec it
transitions the watcher to stopped, and graceful shutdown closes the
storage connection. -/
def stop_watching (_w : Watcher) : Watcher :=
  { state := .stopped, storageConnected := false }

/-- Database initialization succeeded: connect returned True and table
creation returned True. -/
def InitOk (db : DbEnv) : Prop :=
  db.connectRes = .ok true ∧ db.createRes = .ok true

/-- Every startup-phase call of `main` succeeded, so the process
reaches the idle loop. -/
def StartupOk (env : MainEnv) : Prop :=
  InitOk env.db ∧ env.setupFoldersRes = .ok ()
    ∧ env.sweepRes = .ok () ∧ env.startWatchRes = .ok ()

/-! Helper lemmas shared by several theorems. -/

/-- After the idle loop begins, the remaining trace holds only sleep
iterations, log lines and the shutdown call. -/
theorem loopTail_shape (env : MainEnv) :
    ∀ ev ∈ (loopTail env).1,
      ev = Ev.sleepEv ∨ (∃ m, ev = Ev.logInfo m) ∨ (∃ m, ev = Ev.logError m)
        ∨ ev = Ev.stopWatchingEv := by
  intro ev hev
  unfold loopTail at hev
  cases hb : env.loopBreak with
  | none =>
      rw [hb] at hev
      simp only [List.mem_replicate] at hev
      exact Or.inl hev.2
  | some b =>
      rw [hb] at hev
      cases b with
      | signalled =>
          simp only [signal_handler, if_true, List.mem_append, List.mem_replicate,
            List.mem_cons, List.not_mem_nil, or_false] at hev
          rcases hev with ⟨_, h⟩ | h | h
          · exact Or.inl h
          · exact Or.inr (Or.inl ⟨_, h⟩)
          · exact Or.inr (Or.inr (Or.inr h))
      | kbInt =>
          simp only [kbBranch, signal_handler, if_true, List.mem_append, List.mem_replicate,
            List.mem_cons, List.not_mem_nil, or_false] at hev
          rcases hev with ⟨_, h⟩ | h | h | h
          · exact Or.inl h
          · exact Or.inr (Or.inl ⟨_, h⟩)
          · exact Or.inr (Or.inl ⟨_, h⟩)
          · exact Or.inr (Or.inr (Or.inr h))
      | exc e =>
          simp only [excBranch, List.mem_append, List.mem_replicate,
            List.mem_cons, List.not_mem_nil, or_false] at hev
          rcases hev with ⟨_, h⟩ | h
          · exact Or.inl h
          · exact Or.inr (Or.inr (Or.inl ⟨_, h⟩))

/-- C8: `initialize_database` disconnects the DatabaseManager on every
exit path — connect failed, table creation failed or succeeded, an
exception was raised, or a KeyboardInterrupt escaped — so the
startup-phase connection is never left open: on every environment the
last event of its trace is the disconnect. -/
theorem initialize_database_always_disconnects (env : DbEnv) :
    ((initialize_database env).1).getLast? = some Ev.disconnect := by
  obtain ⟨c, r⟩ := env
  cases c with
  | ok b =>
      cases b
      · rfl
      · cases r with
        | ok b2 => cases b2 <;> rfl
        | exc m => rfl
        | kbInt => rfl
  | exc m => rfl
  | kbInt => rfl

/-- C9: `signal_handler` invoked before any watcher instance exists
skips `stop_watching` (its trace is exactly the log line, with no
stop-watching event) and still requests exit status 0. -/
theorem signal_handler_safe_without_watcher :
    signal_handler false
        = ([Ev.logInfo "Shutdown signal received, stopping folder watcher..."], 0)
      ∧ Ev.stopWatchingEv ∉ (signal_handler false).1 := by
  refine ⟨rfl, ?_⟩
  intro h
  simp [signal_handler] at h

/-- C1: whenever startup-phase database initialization fails —
`initialize_database` returns False because connect failed or returned
False, or table creation failed or returned False — `main` exits with
status 1, an error is logged, and no folder setup, sweep or watching
event ever occurs. -/
theorem db_init_failure_aborts_startup (env : MainEnv)
    (h : (initialize_database env.db).2 = .ret false) :
    (main env).2 = .exits 1
      ∧ Ev.logError "Database initialization failed. Exiting..." ∈ (main env).1
      ∧ Ev.setupFoldersEv ∉ (main env).1
      ∧ Ev.processExistingEv ∉ (main env).1
      ∧ Ev.startWatchingEv ∉ (main env).1 := by
  obtain ⟨⟨c, r⟩, sf, sw, stw, n, lb⟩ := env
  cases c with
  | ok b =>
      cases b
      · simp [main, initialize_database]
      · cases r with
        | ok b2 =>
            cases b2
            · simp [main, initialize_database]
            · simp [initialize_database] at h
        | exc m => simp [main, initialize_database]
        | kbInt => simp [initialize_database] at h
  | exc m => simp [main, initialize_database]
  | kbInt => simp [initialize_database] at h

/-- Environment witnessing a failed database connection at startup. -/
def envDbFail : MainEnv :=
  { db := { connectRes := .ok false, createRes := .ok true }
    setupFoldersRes := .ok (), sweepRes := .ok (), startWatchRes := .ok ()
    sleeps := 0, loopBreak := none }

/-- Witness for C1 at a concrete environment where connect returns
False. -/
theorem db_init_failure_aborts_startup_witness :
    (main envDbFail).2 = .exits 1
      ∧ Ev.logError "Database initialization failed. Exiting..." ∈ (main envDbFail).1
      ∧ Ev.setupFoldersEv ∉ (main envDbFail).1
      ∧ Ev.processExistingEv ∉ (main envDbFail).1
      ∧ Ev.startWatchingEv ∉ (main envDbFail).1 :=
  db_init_failure_aborts_startup envDbFail rfl

/-- C4: a folder-setup failure raising IOError (an Exception subclass,
e.g. permission denied) is fatal to startup: `main` logs the error as
unexpected and exits with status 1, and neither the sweep nor watching
ever starts. -/
theorem setup_folders_failure_fatal (env : MainEnv) (e : String)
    (h1 : InitOk env.db) (h2 : env.setupFoldersRes = .exc e) :
    (main env).2 = .exits 1
      ∧ Ev.logError ("Unexpected error: " ++ e) ∈ (main env).1
      ∧ Ev.processExistingEv ∉ (main env).1
      ∧ Ev.startWatchingEv ∉ (main env).1 := by
  obtain ⟨⟨c, r⟩, sf, sw, stw, n, lb⟩ := env
  obtain ⟨h1c, h1r⟩ := h1
  simp only at h1c h1r h2
  subst h1c h1r h2
  simp [main, initialize_database, excBranch]

/-- Environment witnessing a permission-denied folder setup. -/
def envSetupFail : MainEnv :=
  { db := { connectRes := .ok true, createRes := .ok true }
    setupFoldersRes := .exc "Permission denied"
    sweepRes := .ok (), startWatchRes := .ok ()
    sleeps := 0, loopBreak := none }

/-- Witness for C4 at a concrete environment where folder setup raises
a permission error. -/
theorem setup_folders_failure_fatal_witness :
    (main envSetupFail).2 = .exits 1
      ∧ Ev.logError ("Unexpected error: " ++ "Permission denied") ∈ (main envSetupFail).1
      ∧ Ev.processExistingEv ∉ (main envSetupFail).1
      ∧ Ev.startWatchingEv ∉ (main envSetupFail).1 :=
  setup_folders_failure_fatal envSetupFail "Permission denied" ⟨rfl, rfl⟩ rfl

/-- No startup-phase work event (folder setup, sweep, watch start)
occurs in the idle-loop tail. -/
theorem work_events_not_in_loopTail (env : MainEnv) :
    Ev.setupFoldersEv ∉ (loopTail env).1
      ∧ Ev.processExistingEv ∉ (loopTail env).1
      ∧ Ev.startWatchingEv ∉ (loopTail env).1 := by
  refine ⟨?_, ?_, ?_⟩ <;>
    · intro h
      rcases loopTail_shape env _ h with h1 | ⟨m, h1⟩ | ⟨m, h1⟩ | h1 <;> simp at h1

/-- Environment in which every startup call succeeds, the loop sleeps
twice and is then broken by a delivered termination signal. -/
def envOk : MainEnv :=
  { db := { connectRes := .ok true, createRes := .ok true }
    setupFoldersRes := .ok (), sweepRes := .ok (), startWatchRes := .ok ()
    sleeps := 2, loopBreak := some .signalled }

/-- C2: on every successful startup the trace contains the folder
setup event, the synchronous sweep event and the watch start event
exactly once, adjacent and in that order: setup completes, then the
sweep runs to completion, and only then does live watching begin, so
sweep-phase ingestion and event-driven ingestion never overlap. -/
theorem startup_phases_ordered (env : MainEnv) (h : StartupOk env) :
    ∃ t1 t4,
      (main env).1
          = t1 ++ [Ev.setupFoldersEv, Ev.processExistingEv, Ev.startWatchingEv] ++ t4
        ∧ Ev.setupFoldersEv ∉ t1 ∧ Ev.processExistingEv ∉ t1 ∧ Ev.startWatchingEv ∉ t1
        ∧ Ev.setupFoldersEv ∉ t4 ∧ Ev.processExistingEv ∉ t4
        ∧ Ev.startWatchingEv ∉ t4 := by
  obtain ⟨⟨c, r⟩, sf, sw, stw, n, lb⟩ := env
  obtain ⟨⟨h1c, h1r⟩, h2, h3, h4⟩ := h
  simp only at h1c h1r h2 h3 h4
  subst h1c h1r h2 h3 h4
  refine ⟨[Ev.logInfo "Starting Employee Management System - Folder Watcher",
           Ev.logInfo "Initializing database tables...", Ev.connect, Ev.createTables,
           Ev.logInfo "Database initialization completed successfully", Ev.disconnect],
          Ev.logInfo "Folder watcher is running. Press Ctrl+C to stop."
            :: (loopTail ⟨⟨.ok true, .ok true⟩, .ok (), .ok (), .ok (), n, lb⟩).1,
          ?_, by simp, by simp, by simp, ?_, ?_, ?_⟩
  · simp [main, initialize_database]
  · intro h
    rcases List.mem_cons.mp h with h | h
    · exact absurd h (by simp)
    · exact (work_events_not_in_loopTail _).1 h
  · intro h
    rcases List.mem_cons.mp h with h | h
    · exact absurd h (by simp)
    · exact (work_events_not_in_loopTail _).2.1 h
  · intro h
    rcases List.mem_cons.mp h with h | h
    · exact absurd h (by simp)
    · exact (work_events_not_in_loopTail _).2.2 h

/-- Witness for C2 at a concrete all-successful environment. -/
theorem startup_phases_ordered_witness :
    ∃ t1 t4,
      (main envOk).1
          = t1 ++ [Ev.setupFoldersEv, Ev.processExistingEv, Ev.startWatchingEv] ++ t4
        ∧ Ev.setupFoldersEv ∉ t1 ∧ Ev.processExistingEv ∉ t1 ∧ Ev.startWatchingEv ∉ t1
        ∧ Ev.setupFoldersEv ∉ t4 ∧ Ev.processExistingEv ∉ t4
        ∧ Ev.startWatchingEv ∉ t4 :=
  startup_phases_ordered envOk ⟨⟨rfl, rfl⟩, rfl, rfl, rfl⟩

/-- C7: once watching has started, the main thread does no per-file
work: every later event is a sleep iteration of the idle loop, a log
line, or the shutdown stop-watching call, until a signal or exception
ends the process. -/
theorem main_thread_idle_after_watching (env : MainEnv) (h : StartupOk env) :
    ∃ t1 t2,
      (main env).1 = t1 ++ [Ev.startWatchingEv] ++ t2
        ∧ ∀ ev ∈ t2,
            ev = Ev.sleepEv ∨ (∃ m, ev = Ev.logInfo m) ∨ (∃ m, ev = Ev.logError m)
              ∨ ev = Ev.stopWatchingEv := by
  obtain ⟨⟨c, r⟩, sf, sw, stw, n, lb⟩ := env
  obtain ⟨⟨h1c, h1r⟩, h2, h3, h4⟩ := h
  simp only at h1c h1r h2 h3 h4
  subst h1c h1r h2 h3 h4
  refine ⟨[Ev.logInfo "Starting Employee Management System - Folder Watcher",
           Ev.logInfo "Initializing database tables...", Ev.connect, Ev.createTables,
           Ev.logInfo "Database initialization completed successfully", Ev.disconnect,
           Ev.setupFoldersEv, Ev.processExistingEv],
          Ev.logInfo "Folder watcher is running. Press Ctrl+C to stop."
            :: (loopTail ⟨⟨.ok true, .ok true⟩, .ok (), .ok (), .ok (), n, lb⟩).1,
          ?_, ?_⟩
  · simp [main, initialize_database]
  · intro ev hev
    rcases List.mem_cons.mp hev with hev | hev
    · exact Or.inr (Or.inl ⟨_, hev⟩)
    · exact loopTail_shape _ _ hev

/-- Witness for C7 at a concrete all-successful environment. -/
theorem main_thread_idle_after_watching_witness :
    ∃ t1 t2,
      (main envOk).1 = t1 ++ [Ev.startWatchingEv] ++ t2
        ∧ ∀ ev ∈ t2,
            ev = Ev.sleepEv ∨ (∃ m, ev = Ev.logInfo m) ∨ (∃ m, ev = Ev.logError m)
              ∨ ev = Ev.stopWatchingEv :=
  main_thread_idle_after_watching envOk ⟨⟨rfl, rfl⟩, rfl, rfl, rfl⟩

/-- C3: a termination signal (interrupt or terminate) delivered while
the watcher is running with no in-flight file gives a graceful
shutdown: the process exits with status 0, the stop-watching call
appears in the trace, and stopping a watching watcher leaves it in the
stopped state with the storage connection closed. -/
theorem termination_signal_graceful (env : MainEnv) (w : Watcher)
    (h : StartupOk env) (hb : env.loopBreak = some .signalled)
    (hw : w.state = .watching) :
    (main env).2 = .exits 0
      ∧ Ev.stopWatchingEv ∈ (main env).1
      ∧ (stop_watching w).state = .stopped
      ∧ (stop_watching w).storageConnected = false := by
  obtain ⟨⟨c, r⟩, sf, sw, stw, n, lb⟩ := env
  obtain ⟨⟨h1c, h1r⟩, h2, h3, h4⟩ := h
  simp only at h1c h1r h2 h3 h4 hb
  subst h1c h1r h2 h3 h4 hb
  refine ⟨?_, ?_, rfl, rfl⟩
  · simp [main, initialize_database, loopTail, signal_handler]
  · simp [main, initialize_database, loopTail, signal_handler]

/-- Witness for C3 at a concrete environment where the signal arrives
after two idle sleeps, with a watching watcher holding an open storage
connection. -/
theorem termination_signal_graceful_witness :
    (main envOk).2 = .exits 0
      ∧ Ev.stopWatchingEv ∈ (main envOk).1
      ∧ (stop_watching ⟨WState.watching, true⟩).state = .stopped
      ∧ (stop_watching ⟨WState.watching, true⟩).storageConnected = false :=
  termination_signal_graceful envOk ⟨WState.watching, true⟩
    ⟨⟨rfl, rfl⟩, rfl, rfl, rfl⟩ rfl rfl

/-- An Exception with message `e` escapes to the `except Exception`
clause of `main`: raised by folder setup, by the sweep, by the watch
subscription, or inside the idle loop, at a point execution actually
reaches. Exceptions inside `initialize_database` are caught there and
never reach this clause. -/
def ExcEscapes (env : MainEnv) (e : String) : Prop :=
  (InitOk env.db ∧ env.setupFoldersRes = .exc e)
    ∨ (InitOk env.db ∧ env.setupFoldersRes = .ok () ∧ env.sweepRes = .exc e)
    ∨ (InitOk env.db ∧ env.setupFoldersRes = .ok () ∧ env.sweepRes = .ok ()
        ∧ env.startWatchRes = .exc e)
    ∨ (StartupOk env ∧ env.loopBreak = some (.exc e))

/-- A KeyboardInterrupt reaches the `except KeyboardInterrupt` clause
of `main`: raised during connect or table creation (it escapes the
`except Exception` inside `initialize_database`), during folder setup,
the sweep, the watch subscription, or inside the idle loop. -/
def KbIntEscapes (env : MainEnv) : Prop :=
  env.db.connectRes = .kbInt
    ∨ (env.db.connectRes = .ok true ∧ env.db.createRes = .kbInt)
    ∨ (InitOk env.db ∧ env.setupFoldersRes = .kbInt)
    ∨ (InitOk env.db ∧ env.setupFoldersRes = .ok () ∧ env.sweepRes = .kbInt)
    ∨ (InitOk env.db ∧ env.setupFoldersRes = .ok () ∧ env.sweepRes = .ok ()
        ∧ env.startWatchRes = .kbInt)
    ∨ (StartupOk env ∧ env.loopBreak = some .kbInt)

/-- C10: every uncaught Exception in the `try` block of `main` is
logged as an unexpected error and yields exit status 1, while a
KeyboardInterrupt is logged and routed through `signal_handler`,
whose `sys.exit(0)` yields exit status 0. -/
theorem uncaught_exception_vs_keyboard_interrupt (env : MainEnv) (e : String) :
    (ExcEscapes env e →
       (main env).2 = .exits 1
         ∧ Ev.logError ("Unexpected error: " ++ e) ∈ (main env).1)
    ∧ (KbIntEscapes env →
       (main env).2 = .exits 0
         ∧ Ev.logInfo "Keyboard interrupt received" ∈ (main env).1
         ∧ Ev.logInfo "Shutdown signal received, stopping folder watcher..."
             ∈ (main env).1) := by
  obtain ⟨⟨c, r⟩, sf, sw, stw, n, lb⟩ := env
  constructor
  · intro h
    rcases h with ⟨⟨h1, h2⟩, h3⟩ | ⟨⟨h1, h2⟩, h3, h4⟩
        | ⟨⟨h1, h2⟩, h3, h4, h5⟩ | ⟨⟨⟨h1, h2⟩, h3, h4, h5⟩, hb⟩ <;>
      · simp only at *
        subst_vars
        simp [main, initialize_database, excBranch, loopTail]
  · intro h
    rcases h with h1 | ⟨h1, h2⟩ | ⟨⟨h1, h2⟩, h3⟩ | ⟨⟨h1, h2⟩, h3, h4⟩
        | ⟨⟨h1, h2⟩, h3, h4, h5⟩ | ⟨⟨⟨h1, h2⟩, h3, h4, h5⟩, hb⟩ <;>
      · simp only at *
        subst_vars
        simp [main, initialize_database, kbBranch, signal_handler, loopTail]

/-- Environment in which folder setup raises an Exception. -/
def envExc : MainEnv :=
  { db := { connectRes := .ok true, createRes := .ok true }
    setupFoldersRes := .exc "boom"
    sweepRes := .ok (), startWatchRes := .ok ()
    sleeps := 0, loopBreak := none }

/-- Witness for C10 at a concrete environment where folder setup
raises an Exception with message boom. -/
theorem uncaught_exception_vs_keyboard_interrupt_witness :
    (main envExc).2 = .exits 1
      ∧ Ev.logError ("Unexpected error: " ++ "boom") ∈ (main envExc).1 :=
  (uncaught_exception_vs_keyboard_interrupt envExc "boom").1
    (Or.inl ⟨⟨rfl, rfl⟩, rfl⟩)

/-- `process_file` on a file that is already settled as processed is
a no-op. -/
theorem process_file_skip (parse : String → Except String (List Rec))
    (st : IngestState) (f : WFile)
    (h : shouldProcess st f.path (fingerprint f.content) = false) :
    process_file parse st f = st := by
  simp [process_file, h]

/-- `process_file` on a due file that parses commits its batch and
marks it processed. -/
theorem process_file_ok (parse : String → Except String (List Rec))
    (st : IngestState) (f : WFile) (recs : List Rec)
    (hs : shouldProcess st f.path (fingerprint f.content) = true)
    (hp : parse f.content = .ok recs) :
    process_file parse st f
      = { ledger := st.ledger ++ [⟨f.path, fingerprint f.content, .processed⟩]
          storage := st.storage ++ recs
          logs := st.logs } := by
  simp [process_file, hs, hp]

/-- `process_file` on a due file that fails to parse commits nothing,
marks it failed and logs the reason. -/
theorem process_file_fail (parse : String → Except String (List Rec))
    (st : IngestState) (f : WFile) (e : String)
    (hs : shouldProcess st f.path (fingerprint f.content) = true)
    (hf : parse f.content = .error e) :
    process_file parse st f
      = { ledger := st.ledger ++ [⟨f.path, fingerprint f.content, .failed e⟩]
          storage := st.storage
          logs := st.logs ++ [f.path ++ ": " ++ e] } := by
  simp [process_file, hs, hf]

/-- C5: submitting a file with identical path and identical content
twice is idempotent: when the file parses and no processed entry for
its (path, fingerprint) pair exists yet, the first submission commits
exactly its batch of records and leaves exactly one processed ledger
entry for the pair, and the second submission is a no-op on the whole
ingestion state. -/
theorem ingestion_idempotent (parse : String → Except String (List Rec))
    (st : IngestState) (f : WFile) (recs : List Rec)
    (hp : parse f.content = .ok recs)
    (h0 : countProcessed st f.path (fingerprint f.content) = 0) :
    process_file parse (process_file parse st f) f = process_file parse st f
      ∧ countProcessed (process_file parse st f) f.path (fingerprint f.content) = 1
      ∧ (process_file parse st f).storage = st.storage ++ recs := by
  have h0' : (processedEntries st f.path (fingerprint f.content)).length = 0 := h0
  have hs : shouldProcess st f.path (fingerprint f.content) = true := by
    simp [shouldProcess, h0']
  have hst1 := process_file_ok parse st f recs hs hp
  have hpe : processedEntries (process_file parse st f) f.path (fingerprint f.content)
      = processedEntries st f.path (fingerprint f.content)
          ++ [⟨f.path, fingerprint f.content, .processed⟩] := by
    rw [hst1]
    simp [processedEntries, List.filter_append]
  have hcount : countProcessed (process_file parse st f) f.path (fingerprint f.content)
      = 1 := by
    simp [countProcessed, hpe, h0']
  have hs2 : shouldProcess (process_file parse st f) f.path (fingerprint f.content)
      = false := by
    simp only [countProcessed] at hcount
    simp [shouldProcess, hcount]
  exact ⟨process_file_skip parse _ f hs2, hcount, by rw [hst1]⟩

/-- Parser used by the pipeline witnesses: one record per file, the
content as a name field; the content bad is malformed. -/
def parseW (c : String) : Except String (List Rec) :=
  if c = "bad" then Except.error "malformed" else Except.ok [[("name", c)]]

/-- Empty ingestion state. -/
def st0 : IngestState := { ledger := [], storage := [], logs := [] }

/-- A well-formed file. -/
def fileA : WFile := { path := "a.csv", content := "alice" }

/-- A malformed file. -/
def fileBad : WFile := { path := "bad.csv", content := "bad" }

/-- Witness for C5: the well-formed file submitted twice to the empty
state yields one committed batch and one processed entry, and the
second submission changes nothing. -/
theorem ingestion_idempotent_witness :
    process_file parseW (process_file parseW st0 fileA) fileA
        = process_file parseW st0 fileA
      ∧ countProcessed (process_file parseW st0 fileA) fileA.path
          (fingerprint fileA.content) = 1
      ∧ (process_file parseW st0 fileA).storage
          = st0.storage ++ [[("name", "alice")]] :=
  ingestion_idempotent parseW st0 fileA [[("name", "alice")]] rfl rfl

/-- C6: a per-file parse failure is handled at the file boundary: the
sweep continues with the remaining files exactly as if the failing
file had been handled (it never terminates the watcher), the failing
file is marked failed in the ledger with its reason logged and no
records committed, and a later well-formed file in the same sweep is
still processed. Live watching funnels events through the same
`process_file` path, so the same isolation holds there. -/
theorem per_file_failure_isolated (parse : String → Except String (List Rec))
    (st : IngestState) (fs : List WFile) (f g : WFile) (e : String) (recs : List Rec)
    (hf : parse f.content = .error e)
    (hg : parse g.content = .ok recs)
    (hsf : shouldProcess st f.path (fingerprint f.content) = true)
    (hsg : shouldProcess (process_file parse st f) g.path (fingerprint g.content)
        = true) :
    sweep parse st (f :: fs) = sweep parse (process_file parse st f) fs
      ∧ process_file parse st f
          = { ledger := st.ledger ++ [⟨f.path, fingerprint f.content, .failed e⟩]
              storage := st.storage
              logs := st.logs ++ [f.path ++ ": " ++ e] }
      ∧ (⟨g.path, fingerprint g.content, .processed⟩ : LedgerEntry)
          ∈ (sweep parse st [f, g]).ledger := by
  refine ⟨rfl, process_file_fail parse st f e hsf hf, ?_⟩
  show (⟨g.path, fingerprint g.content, .processed⟩ : LedgerEntry)
      ∈ (process_file parse (process_file parse st f) g).ledger
  rw [process_file_ok parse _ g recs hsg hg]
  simp

/-- Witness for C6: sweeping the malformed file then the well-formed
file from the empty state marks the first failed and still processes
the second. -/
theorem per_file_failure_isolated_witness :
    sweep parseW st0 (fileBad :: [fileA])
        = sweep parseW (process_file parseW st0 fileBad) [fileA]
      ∧ process_file parseW st0 fileBad
          = { ledger := st0.ledger
                ++ [⟨fileBad.path, fingerprint fileBad.content, .failed "malformed"⟩]
              storage := st0.storage
              logs := st0.logs ++ [fileBad.path ++ ": " ++ "malformed"] }
      ∧ (⟨fileA.path, fingerprint fileA.content, .processed⟩ : LedgerEntry)
          ∈ (sweep parseW st0 [fileBad, fileA]).ledger :=
  per_file_failure_isolated parseW st0 [fileA] fileBad fileA "malformed"
    [[("name", "alice")]] rfl rfl rfl rfl

end EmpsSystem
